import Mathlib

/-!
Shallow embedding of the postmarkapi client (src/pmk.js): the email
request builder (`PMK.prototype.email`), the generic request helper
(`makeRequest`), the server management endpoints (`createServer`,
`updateServer`) and the constructor (`PMK`).

JavaScript values that a message field can hold are modelled explicitly:
a field documented as `String|String[]` is a `Field` (absent, a string, or
an array of strings); a plain string field is an `Option String` where
`none` is an absent key.  JavaScript truthiness is modelled per type:
`undefined`/absent and the empty string are falsy, every array (even the
empty one) is truthy.
-/

namespace PMK

/-- A JavaScript value standing in a `String|String[]` slot of the message
object: absent (`undefined`), a string, or an array of strings. -/
inductive Field where
  | absent
  | str (s : String)
  | list (xs : List String)
deriving DecidableEq, Repr

/-- JavaScript truthiness of a `Field`: `undefined` and `""` are falsy;
every array is truthy, including `[]`. -/
def Field.truthy : Field → Bool
  | Field.absent => false
  | Field.str s => s != ""
  | Field.list _ => true

/-- JavaScript truthiness of an optional plain-string field. -/
def truthyS : Option String → Bool
  | none => false
  | some s => s != ""

/-- The message argument of `PMK.prototype.email` (src/pmk.js lines 52-184).
`from` is spelled `from'` because `from` is a Lean keyword. -/
structure Message where
  from' : Option String := none
  fromName : Option String := none
  to' : Field := Field.absent
  cc : Field := Field.absent
  bcc : Field := Field.absent
  reply : Field := Field.absent
  tag : Option String := none
  subject : Option String := none
  text : Option String := none
  html : Option String := none
  headers : Option (List (String × String)) := none
  attachments : Option (List String) := none
deriving DecidableEq, Repr

/-- The error object `PMKError(message)` as used by the email path (the
response path of `makeRequest` attaches a detail object and is modelled
separately by `RespOutcome`). -/
structure PMKError where
  message : String
deriving DecidableEq, Repr

/-- One `{Name, Value}` record of the wire `Headers` array. -/
structure HeaderPair where
  Name : String
  Value : String
deriving DecidableEq, Repr

/-- One `{Name, Content, ContentType}` record of the wire `Attachments`
array. -/
structure WireAttachment where
  Name : String
  Content : String
  ContentType : String
deriving DecidableEq, Repr

/-- The wire payload `body` assembled by `PMK.prototype.email`.  `To`,
`Cc`, `Bcc` and `ReplyTo` are `Field`s because the final field-copy loop
in `doRequest` stores the raw message value (which may be an array);
`Field.absent` stands for a key that was never set. -/
structure Body where
  From : Option String := none
  To : Field := Field.absent
  Cc : Field := Field.absent
  Bcc : Field := Field.absent
  ReplyTo : Field := Field.absent
  Tag : Option String := none
  HtmlBody : Option String := none
  TextBody : Option String := none
  Subject : Option String := none
  Headers : Option (List HeaderPair) := none
  Attachments : Option (List WireAttachment) := none
deriving DecidableEq, Repr

/-- Result of one call to `PMK.prototype.email`: either the callback was
invoked with an error before any network request, or an HTTP POST to the
email endpoint was issued with the given wire payload. -/
inductive EmailOutcome where
  | err (e : PMKError)
  | posted (body : Body)
deriving DecidableEq, Repr

/-- The regex `nonWord = /[^a-z0-9 ]/i` (src/pmk.js line 12): whether the
character is in the class `[A-Za-z0-9 ]`. -/
def isWordChar (c : Char) : Bool :=
  ('a' ≤ c && c ≤ 'z') || ('A' ≤ c && c ≤ 'Z') || ('0' ≤ c && c ≤ '9') || c == ' '

/-- The test `nonWord.test(s)`: some character of `s` falls outside
`[A-Za-z0-9 ]`. -/
def nonWordTest (s : String) : Bool :=
  s.data.any (fun c => !(isWordChar c))

/-- Error message of the `to` validation (src/pmk.js lines 62 and 83). -/
def toNotSetMsg : String := "'to' email address not set"

/-- Error message of the `subject` validation (src/pmk.js line 65). -/
def subjectNotSetMsg : String := "'subject' for email not set"

/-- Error message of the body-content validation (src/pmk.js line 68). -/
def contentNotSetMsg : String := "email content ('text', 'html') not set"

/-- Error message of the recipient-limit check (src/pmk.js line 118). -/
def recipientLimitMsg (n : Nat) : String :=
  "Postmark has a limit of 20 recipients, this request has " ++ toString n

/-- The `From` assembly (src/pmk.js lines 72-78): with both `from` and
`fromName` truthy the display name (quoted when it matches `nonWord`) is
prepended; with only `from` truthy the bare address is used; otherwise the
key is left unset. -/
def fromField (m : Message) : Option String :=
  if truthyS m.from' && truthyS m.fromName then
    let fn := m.fromName.getD ""
    some ((if nonWordTest fn then "\"" ++ fn ++ "\"" else fn) ++ " <" ++ m.from'.getD "" ++ ">")
  else if truthyS m.from' then m.from'
  else none

/-- The `To` assembly (src/pmk.js lines 81-92): an array is rejected when
empty and otherwise joined with commas; any non-array value is stored
unchanged. -/
def emailToField : Field → Except PMKError Field
  | Field.list xs =>
    if xs.isEmpty then Except.error ⟨toNotSetMsg⟩
    else Except.ok (Field.str (String.intercalate "," xs))
  | f => Except.ok f

/-- The `Cc`/`Bcc` assembly (src/pmk.js lines 95-114): a non-empty array
is joined with commas, a truthy non-array value is stored unchanged, and
anything else leaves the key unset. -/
def ccField : Field → Field
  | Field.list xs =>
    if xs.isEmpty then Field.absent else Field.str (String.intercalate "," xs)
  | Field.str s => if s == "" then Field.absent else Field.str s
  | Field.absent => Field.absent

/-- Contribution of `to` to the `recipients` counter (src/pmk.js lines
87 and 90): an array counts its length, anything else counts 1. -/
def toCount : Field → Nat
  | Field.list xs => xs.length
  | _ => 1

/-- Contribution of `cc` or `bcc` to the `recipients` counter (src/pmk.js
lines 95-114): an array counts its length (an empty array adds nothing,
which equals its length), a truthy non-array value counts 1, anything
else 0. -/
def optCount : Field → Nat
  | Field.list xs => xs.length
  | Field.str s => if s == "" then 0 else 1
  | Field.absent => 0

/-- The `recipients` counter accumulated across `to`, `cc` and `bcc`. -/
def countRecipients (m : Message) : Nat :=
  toCount m.to' + optCount m.cc + optCount m.bcc

/-- The `Headers` assembly (src/pmk.js lines 122-131): the mapping becomes
an array of `{Name, Value}` records in iteration order. -/
def headersField (hs : Option (List (String × String))) : Option (List HeaderPair) :=
  hs.map (fun l => l.map (fun kv => ⟨kv.fst, kv.snd⟩))

/-- Alphabet used by `Buffer.prototype.toString('base64')`. -/
def b64Alphabet : List Char :=
  "ABCDEFGHIJKLMNOPQRSTUVWXYZabcdefghijklmnopqrstuvwxyz0123456789+/".data

/-- Character of the base64 alphabet at index `n` (0-63). -/
def b64CharAt (n : Nat) : Char := b64Alphabet.getD n 'A'

/-- Standard base64 encoding with padding, as `content.toString('base64')`
performs on the bytes read from the file. -/
def base64Encode : List UInt8 → String
  | a :: b :: c :: rest =>
    let n := a.toNat * 65536 + b.toNat * 256 + c.toNat
    String.mk [b64CharAt (n / 262144 % 64), b64CharAt (n / 4096 % 64),
               b64CharAt (n / 64 % 64), b64CharAt (n % 64)] ++ base64Encode rest
  | [a, b] =>
    let n := a.toNat * 65536 + b.toNat * 256
    String.mk [b64CharAt (n / 262144 % 64), b64CharAt (n / 4096 % 64),
               b64CharAt (n / 64 % 64)] ++ "="
  | [a] =>
    let n := a.toNat * 65536
    String.mk [b64CharAt (n / 262144 % 64), b64CharAt (n / 4096 % 64)] ++ "=="
  | [] => ""

/-- `path.basename`: the last `/`-separated component of the path. -/
def basename (p : String) : String :=
  match (p.splitOn "/").getLast? with
  | some s => s
  | none => p

/-- The attachment-reading phase (src/pmk.js lines 133-155): each path is
read through the filesystem `fs` and becomes a `{Name, Content,
ContentType}` record; the first failing read aborts the whole phase with
its error.  The source runs the reads concurrently through `async.each`
and pushes results in completion order; this embedding fixes list
order, which decides the same outcomes.  (The source also rejects
non-string entries with a `PMKError`; attachments are modelled as the
string paths the API documents.)  `mime` stands for the external
`mime.lookup` extension table. -/
def readAtts (fs : String → Except PMKError (List UInt8)) (mime : String → String) :
    List String → Except PMKError (List WireAttachment)
  | [] => Except.ok []
  | p :: ps => do
    let content ← fs p
    let rest ← readAtts fs mime ps
    Except.ok (⟨basename p, base64Encode content, mime p⟩ :: rest)

/-- The field-copy loop of `doRequest` (src/pmk.js lines 166-179): for
each of `reply`, `tag`, `html`, `text`, `subject`, `to`, a truthy message
value is stored raw under its wire name, overwriting anything already
there.  The loop body touches independent keys, so the sequential
source loop equals this simultaneous record update.  The entry for `to`
overwrites the comma-joined `To` computed earlier with the raw message
value. -/
def doRequestFields (m : Message) (b : Body) : Body :=
  { b with
    ReplyTo := if m.reply.truthy then m.reply else b.ReplyTo,
    Tag := if truthyS m.tag then m.tag else b.Tag,
    HtmlBody := if truthyS m.html then m.html else b.HtmlBody,
    TextBody := if truthyS m.text then m.text else b.TextBody,
    Subject := if truthyS m.subject then m.subject else b.Subject,
    To := if m.to'.truthy then m.to' else b.To }

/-- The `body` object as it stands after the `From`/`To`/`Cc`/`Bcc` and
`Headers` assembly, `toF` being the value the `To` assembly stored. -/
def assembledBody (m : Message) (toF : Field) : Body :=
  { From := fromField m, To := toF, Cc := ccField m.cc,
    Bcc := ccField m.bcc, Headers := headersField m.headers }

/-- `PMK.prototype.email` (src/pmk.js lines 52-184) as a function from the
message (and the external filesystem and mime table) to its outcome:
mandatory checks, `From`/`To`/`Cc`/`Bcc` assembly, the recipient limit,
headers, attachments, then the final field copy and the POST. -/
def email (fs : String → Except PMKError (List UInt8)) (mime : String → String)
    (m : Message) : EmailOutcome :=
  if !m.to'.truthy then EmailOutcome.err ⟨toNotSetMsg⟩
  else if !truthyS m.subject then EmailOutcome.err ⟨subjectNotSetMsg⟩
  else if !truthyS m.text && !truthyS m.html then EmailOutcome.err ⟨contentNotSetMsg⟩
  else
    match emailToField m.to' with
    | Except.error e => EmailOutcome.err e
    | Except.ok toF =>
      if 20 < countRecipients m then
        EmailOutcome.err ⟨recipientLimitMsg (countRecipients m)⟩
      else
        match m.attachments with
        | none => EmailOutcome.posted (doRequestFields m (assembledBody m toF))
        | some paths =>
          match readAtts fs mime paths with
          | Except.error e => EmailOutcome.err e
          | Except.ok atts =>
            EmailOutcome.posted
              (doRequestFields m { assembledBody m toF with Attachments := some atts })

/-- A filesystem on which every read fails (no claim about a message
without attachments depends on it). -/
def fs0 : String → Except PMKError (List UInt8) :=
  fun _ => Except.error ⟨"ENOENT: no such file or directory"⟩

/-- A constant mime table for concrete evaluations. -/
def mime0 : String → String := fun _ => "application/octet-stream"

/-- The `options` object that `makeRequest` (src/pmk.js lines 545-568)
hands to the `request` library: method, uri, headers, and the optional
`body` (a JSON string) or `qs` (the raw mapping serialized by the
transport as URL query parameters). -/
structure ReqOptions where
  method : String
  uri : String
  headers : List (String × String)
  body : Option String := none
  qs : Option (List (String × String)) := none
deriving DecidableEq, Repr

/-- `JSON.stringify` of a flat string-to-string mapping (quote escaping
inside keys and values is not modelled; no claim feeds such data). -/
def jsonStringifyFlat (d : List (String × String)) : String :=
  "\x7b" ++
    String.intercalate ","
      (d.map (fun kv => "\"" ++ kv.fst ++ "\":\"" ++ kv.snd ++ "\"")) ++
  "\x7d"

/-- `method.toUpperCase()` (ASCII, which covers every method name the
client uses). -/
def jsToUpperCase (s : String) : String := String.mk (s.data.map Char.toUpper)

/-- Option building of `makeRequest` (src/pmk.js lines 545-568): `data`
is `none` when the call arrived with fewer than five arguments; a present
mapping becomes the JSON `body` exactly when the upper-cased method is
POST and the `qs` query-string mapping otherwise. -/
def makeRequestOptions (token method pathname : String)
    (data : Option (List (String × String))) : ReqOptions :=
  let base : ReqOptions := {
    method := method,
    uri := "https://api.postmarkapp.com/" ++ pathname,
    headers := [("charset", "utf-8"), ("Accept", "application/json"),
                ("Content-Type", "application/json"),
                ("X-Postmark-Server-Token", token)] }
  match data with
  | none => base
  | some d =>
    if jsToUpperCase method == "POST" then { base with body := some (jsonStringifyFlat d) }
    else { base with qs := some d }

/-- A JSON value as produced by `JSON.parse`, extended with `undefinedV`
for the result of looking up a missing key. -/
inductive JVal where
  | undefinedV
  | nullV
  | boolV (b : Bool)
  | num (n : Int)
  | str (s : String)
  | arr (elems : List JVal)
  | obj (fields : List (String × JVal))

/-- JavaScript truthiness of a parsed JSON value. -/
def JVal.truthy : JVal → Bool
  | JVal.undefinedV => false
  | JVal.nullV => false
  | JVal.boolV b => b
  | JVal.num n => n != 0
  | JVal.str s => s != ""
  | JVal.arr _ => true
  | JVal.obj _ => true

/-- Property read `o[k]` on a parsed JSON object (`JSON.parse` yields
each key at most once): the stored value, or `undefined`. -/
def jget (o : List (String × JVal)) (k : String) : JVal :=
  match o.find? (fun kv => kv.fst == k) with
  | some kv => kv.snd
  | none => JVal.undefinedV

/-- `delete o[k]` on a parsed JSON object. -/
def eraseKey (o : List (String × JVal)) (k : String) : List (String × JVal) :=
  o.filter (fun kv => kv.fst != k)

/-- What the callback receives from `makeRequest` once the response body
parsed as a JSON object (src/pmk.js lines 585-596). -/
inductive RespOutcome where
  | err (message : JVal) (detail : List (String × JVal))
  | ok (result : List (String × JVal))

/-- Response normalization of `makeRequest` (src/pmk.js lines 585-596):
a truthy `ErrorCode` turns the body into a `PMKError` whose message is
the truthy `Message` value (then deleted from the body) or `'Failed'`;
otherwise the parsed body is delivered as the success value. -/
def handleParsed (result : List (String × JVal)) : RespOutcome :=
  if (jget result "ErrorCode").truthy then
    if (jget result "Message").truthy then
      RespOutcome.err (jget result "Message") (eraseKey result "Message")
    else
      RespOutcome.err (JVal.str "Failed") result
  else
    RespOutcome.ok result

/-- The `options` argument of `createServer` / `updateServer`
(src/pmk.js lines 455-529). -/
structure ServerOptions where
  name : Option String := none
  color : Option String := none
  smtp : Option Bool := none
  raw : Option Bool := none
  inboundHook : Option String := none
  bounceHook : Option String := none
  inboundDomain : Option String := none
deriving DecidableEq, Repr

/-- JavaScript truthiness of an optional boolean option. -/
def truthyB : Option Bool → Bool
  | none => false
  | some b => b

/-- The body a server call would send; with the `pars` typo only `Name`
can ever be populated. -/
structure ServerBody where
  Name : Option String := none
deriving DecidableEq, Repr

/-- Result of `createServer` / `updateServer`: a synchronously thrown
JavaScript error escaping the method, or an HTTP request. -/
inductive ServerOutcome where
  | thrown (e : String)
  | request (method : String) (pathname : String) (body : ServerBody)
deriving DecidableEq, Repr

/-- Message of the `ReferenceError` raised by evaluating the undefined
identifier `pars` (the loop body reads `pars[key]` although the table is
named `pairs`, src/pmk.js lines 486 and 524). -/
def parsMsg : String := "pars is not defined"

/-- `PMK.prototype.createServer` (src/pmk.js lines 468-491): `body`
starts as `{Name: options.name}`; the option-copy loop evaluates
`pars[key]` for the first truthy key among `color`, `smtp`, `raw`,
`inboundHook`, `bounceHook`, `inboundDomain`, raising a `ReferenceError`
that escapes the method; with no truthy key the loop assigns nothing and
the POST goes out. -/
def createServer (options : ServerOptions) : ServerOutcome :=
  if truthyS options.color then ServerOutcome.thrown parsMsg
  else if truthyB options.smtp then ServerOutcome.thrown parsMsg
  else if truthyB options.raw then ServerOutcome.thrown parsMsg
  else if truthyS options.inboundHook then ServerOutcome.thrown parsMsg
  else if truthyS options.bounceHook then ServerOutcome.thrown parsMsg
  else if truthyS options.inboundDomain then ServerOutcome.thrown parsMsg
  else ServerOutcome.request "POST" "servers" { Name := options.name }

/-- `PMK.prototype.updateServer` (src/pmk.js lines 507-529): same shape,
but its table also lists `name`, so even a name-only update evaluates
`pars[key]` and throws; with no truthy key an empty body is PUT. -/
def updateServer (id : String) (options : ServerOptions) : ServerOutcome :=
  if truthyS options.name then ServerOutcome.thrown parsMsg
  else if truthyS options.color then ServerOutcome.thrown parsMsg
  else if truthyB options.smtp then ServerOutcome.thrown parsMsg
  else if truthyB options.raw then ServerOutcome.thrown parsMsg
  else if truthyS options.inboundHook then ServerOutcome.thrown parsMsg
  else if truthyS options.bounceHook then ServerOutcome.thrown parsMsg
  else if truthyS options.inboundDomain then ServerOutcome.thrown parsMsg
  else ServerOutcome.request "PUT" ("servers/" ++ id) {}

/-- A value explicitly passed as the constructor's token argument. -/
inductive TokenArg where
  | undefinedV
  | nullV
  | str (s : String)
deriving DecidableEq, Repr

/-- The string thrown by the constructor when called with no argument
(src/pmk.js line 23). -/
def ctorThrowMsg : String := "You must initialize with a valid postmark api token"

/-- The `PMK` constructor (src/pmk.js lines 21-30) over its `arguments`
list: it throws exactly when `arguments.length` is zero; the token value
itself is never inspected. -/
def construct (args : List TokenArg) : Except String Unit :=
  if args.length = 0 then Except.error ctorThrowMsg else Except.ok ()

/-- Address `i` used to build concrete recipient lists. -/
def addr (i : Nat) : String := "r" ++ toString i ++ "@x.com"

/-- Concrete message hitting the recipient limit: 15 `to`, 4 `cc`,
2 `bcc` recipients. -/
def exMsgLimit : Message :=
  { to' := Field.list ((List.range 15).map addr),
    cc := Field.list ((List.range 4).map addr),
    bcc := Field.list ((List.range 2).map addr),
    subject := some "s", text := some "t" }

/-- Concrete message with a display name that needs quoting. -/
def exMsgFrom : Message :=
  { from' := some "a@b.com", fromName := some "John, Doe",
    to' := Field.str "x@y.com", subject := some "s", text := some "t" }

/-- The wire payload `exMsgFrom` produces. -/
def exBodyFrom : Body :=
  { From := some "\"John, Doe\" <a@b.com>", To := Field.str "x@y.com",
    TextBody := some "t", Subject := some "s" }

/-- Concrete message for the determinism witness. -/
def exMsgDet : Message :=
  { to' := Field.str "q@r.com", subject := some "hello", html := some "<b>hi</b>" }

/-- The wire payload `exMsgDet` produces. -/
def exBodyDet : Body :=
  { To := Field.str "q@r.com", HtmlBody := some "<b>hi</b>", Subject := some "hello" }

/-- A filesystem where `a.txt` reads as the two bytes of `hi` and every
other path fails with an ENOENT-style error. -/
def fsW : String → Except PMKError (List UInt8) :=
  fun p => if p == "a.txt" then Except.ok [104, 105]
           else Except.error ⟨"ENOENT: no such file or directory, open b.txt"⟩

/-- Concrete message with one readable and one unreadable attachment. -/
def exMsgAtt : Message :=
  { to' := Field.str "x@y.com", subject := some "s", text := some "t",
    attachments := some ["a.txt", "b.txt"] }

-- A quick sanity example exercising the whole pipeline.
example :
    email fs0 mime0 { to' := Field.str "x@y.com", subject := some "s", text := some "t" }
      = EmailOutcome.posted { To := Field.str "x@y.com", TextBody := some "t",
                              Subject := some "s" } := by
  rfl

/-- C1: evaluated at a message whose `to` is the two-address list, `email`
posts a wire payload whose `To` field is the raw array (the `to: 'To'` entry
of the final field-copy loop overwrites the comma-joined string computed at
assembly), which differs from the joined string the claim and spec promise;
a single non-list address is passed through unchanged. -/
theorem c1_to_overwritten :
    email fs0 mime0 { to' := Field.list ["a@b.com", "c@d.com"], subject := some "s",
                      text := some "body" }
      = EmailOutcome.posted { To := Field.list ["a@b.com", "c@d.com"],
                              TextBody := some "body", Subject := some "s" }
    ∧ Field.list ["a@b.com", "c@d.com"]
        ≠ Field.str (String.intercalate "," ["a@b.com", "c@d.com"])
    ∧ email fs0 mime0 { to' := Field.str "a@b.com", subject := some "s",
                        text := some "body" }
      = EmailOutcome.posted { To := Field.str "a@b.com", TextBody := some "body",
                              Subject := some "s" } := by
  refine ⟨rfl, by decide, rfl⟩

/-- C2: `createServer` called with a truthy `color` option and `updateServer`
called with a truthy `name` option both raise the `ReferenceError` caused by
the undefined identifier `pars` synchronously, escaping the call boundary
instead of reaching the callback; a `createServer` call with only `name`
still goes through. -/
theorem c2_pars_typo :
    createServer { name := some "production", color := some "red" }
      = ServerOutcome.thrown parsMsg
    ∧ updateServer "42" { name := some "renamed" } = ServerOutcome.thrown parsMsg
    ∧ createServer { name := some "production" }
      = ServerOutcome.request "POST" "servers" { Name := some "production" } :=
  ⟨rfl, rfl, rfl⟩

/-- C3 counterexample: for a PUT carrying a data mapping, `makeRequest` sends
no JSON body at all; the mapping goes out as the `qs` query-string mapping,
contradicting the claim that POST and PUT both use a JSON body. -/
theorem c3_put_counterexample :
    (makeRequestOptions "tok" "PUT" "senders/7" (some [("Name", "x")])).body = none
    ∧ (makeRequestOptions "tok" "PUT" "senders/7" (some [("Name", "x")])).qs
        = some [("Name", "x")] :=
  ⟨rfl, rfl⟩

/-- C3 amended: a present options mapping is serialized as URL query
parameters for every method other than POST — GET and PUT alike — and as
the JSON-serialized request body exactly for POST. -/
theorem c3_data_placement (token pathname : String) (d : List (String × String)) :
    (makeRequestOptions token "GET" pathname (some d)).qs = some d
    ∧ (makeRequestOptions token "GET" pathname (some d)).body = none
    ∧ (makeRequestOptions token "POST" pathname (some d)).body
        = some (jsonStringifyFlat d)
    ∧ (makeRequestOptions token "POST" pathname (some d)).qs = none
    ∧ (makeRequestOptions token "PUT" pathname (some d)).qs = some d
    ∧ (makeRequestOptions token "PUT" pathname (some d)).body = none :=
  ⟨rfl, rfl, rfl, rfl, rfl, rfl⟩

/-- C10: the constructor throws its missing-token string exactly when the
`arguments` list is empty; any explicitly passed token value, `undefined`,
`null` and the empty string included, constructs without failure. -/
theorem c10_construct_throws_iff_no_args (args : List TokenArg) :
    (construct args = Except.error ctorThrowMsg ↔ args = [])
    ∧ (args ≠ [] → construct args = Except.ok ()) := by
  cases args <;> simp [construct]

/-- C10 witness: zero arguments throw; explicit `undefined`, `null` and
empty-string tokens are each accepted. -/
theorem c10_witness :
    construct [] = Except.error ctorThrowMsg
    ∧ construct [TokenArg.undefinedV] = Except.ok ()
    ∧ construct [TokenArg.nullV] = Except.ok ()
    ∧ construct [TokenArg.str ""] = Except.ok () := by
  refine ⟨(c10_construct_throws_iff_no_args []).1.2 rfl, ?_, ?_, ?_⟩
  · exact (c10_construct_throws_iff_no_args [TokenArg.undefinedV]).2 (by simp)
  · exact (c10_construct_throws_iff_no_args [TokenArg.nullV]).2 (by simp)
  · exact (c10_construct_throws_iff_no_args [TokenArg.str ""]).2 (by simp)

/-- C4 counterexample: a message whose `to` is the empty list and whose
`subject` is absent fails with the subject error, not the `to` error — an
empty array is truthy in JavaScript, so the presence check passes and the
empty-list check only runs later, during `To` assembly. -/
theorem c4_empty_to_counterexample :
    email fs0 mime0 { to' := Field.list [], text := some "x" }
      = EmailOutcome.err ⟨subjectNotSetMsg⟩
    ∧ subjectNotSetMsg ≠ toNotSetMsg :=
  ⟨rfl, by decide⟩

/-- C4 amended: validation is fail-fast, short-circuits before any
filesystem or network use (the outcome below is the same for every `fs`
and `mime`), and runs in this order: (1) `to` truthy — an empty list
counts as present; (2) `subject` present; (3) at least one of
`text`/`html`; the empty-`to`-list failure only fires during `To`
assembly, after checks (2) and (3) but before the recipient-limit check,
and reuses the `to` error message. -/
theorem c4_validation_order (fs : String → Except PMKError (List UInt8))
    (mime : String → String) (m : Message) :
    (m.to'.truthy = false → email fs mime m = EmailOutcome.err ⟨toNotSetMsg⟩)
    ∧ (m.to'.truthy = true → truthyS m.subject = false →
        email fs mime m = EmailOutcome.err ⟨subjectNotSetMsg⟩)
    ∧ (m.to'.truthy = true → truthyS m.subject = true → truthyS m.text = false →
        truthyS m.html = false → email fs mime m = EmailOutcome.err ⟨contentNotSetMsg⟩)
    ∧ (m.to' = Field.list [] → truthyS m.subject = true →
        (truthyS m.text = true ∨ truthyS m.html = true) →
        email fs mime m = EmailOutcome.err ⟨toNotSetMsg⟩) := by
  refine ⟨fun h1 => ?_, fun h1 h2 => ?_, fun h1 h2 h3 h4 => ?_, fun h1 h2 h3 => ?_⟩
  · simp [email, h1]
  · simp [email, h1, h2]
  · simp [email, h1, h2, h3, h4]
  · rcases h3 with h3 | h3 <;>
      simp [email, h1, h2, h3, Field.truthy, emailToField]

/-- C4 witness: with subject and text present, the empty `to` list does
fail with the `to` validation error before any I/O. -/
theorem c4_witness :
    email fs0 mime0 { to' := Field.list [], subject := some "s", text := some "t" }
      = EmailOutcome.err ⟨toNotSetMsg⟩ :=
  (c4_validation_order fs0 mime0
      { to' := Field.list [], subject := some "s", text := some "t" }).2.2.2
    rfl (by decide) (Or.inl (by decide))

/-- C5: for a message that passes the presence validations, the recipient
count the code accumulates equals the claim formula — length of `to` when
a list else 1, plus, for each of `cc` and `bcc`, its length when a list,
1 when a truthy single address, 0 otherwise — and whenever that count
exceeds 20, `email` reports the limit error carrying the actual count and
posts nothing (uniformly in `fs` and `mime`, so no I/O happens). -/
theorem c5_recipient_limit (fs : String → Except PMKError (List UInt8))
    (mime : String → String) (m : Message)
    (h1 : m.to'.truthy = true) (h2 : truthyS m.subject = true)
    (h3 : truthyS m.text = true ∨ truthyS m.html = true)
    (h4 : m.to' ≠ Field.list []) :
    countRecipients m
      = (match m.to' with | Field.list xs => xs.length | _ => 1)
        + ((match m.cc with
            | Field.list xs => xs.length
            | Field.str s => if s == "" then 0 else 1
            | Field.absent => 0)
          + (match m.bcc with
             | Field.list xs => xs.length
             | Field.str s => if s == "" then 0 else 1
             | Field.absent => 0))
    ∧ (20 < countRecipients m →
        email fs mime m = EmailOutcome.err ⟨recipientLimitMsg (countRecipients m)⟩) := by
  constructor
  · obtain ⟨f, fn, tov, ccv, bccv, rv, tg, sb, tx, ht, hd, av⟩ := m
    rcases tov with _ | s | xs <;> rcases ccv with _ | s1 | xs1 <;>
      rcases bccv with _ | s2 | xs2 <;>
      simp [countRecipients, toCount, optCount, Nat.add_assoc]
  · intro hc
    obtain ⟨tf, htf⟩ : ∃ tf, emailToField m.to' = Except.ok tf := by
      cases hto : m.to' with
      | absent => rw [hto] at h1; cases h1
      | str s => exact ⟨_, rfl⟩
      | list xs =>
        have hne : xs ≠ [] := fun h => h4 (by rw [hto, h])
        cases xs with
        | nil => exact absurd rfl hne
        | cons a l => exact ⟨_, rfl⟩
    rcases h3 with h3 | h3 <;>
      simp [email, h1, h2, h3, htf, hc]

/-- C5 witness: a `to` list of length 15, `cc` of length 4 and `bcc` of
length 2 yield the limit error with count 21. -/
theorem c5_witness :
    email fs0 mime0 exMsgLimit
      = EmailOutcome.err ⟨"Postmark has a limit of 20 recipients, this request has 21"⟩ := by
  have h := (c5_recipient_limit fs0 mime0 exMsgLimit (by decide) (by decide)
      (Or.inl (by decide)) (by decide)).2 (by decide)
  exact h

/-- Helper: once `to` is truthy and not the empty list, the `To` assembly
succeeds. -/
theorem emailToField_ok (f : Field) (h1 : f.truthy = true) (h4 : f ≠ Field.list []) :
    ∃ tf, emailToField f = Except.ok tf := by
  cases f with
  | absent => cases h1
  | str s => exact ⟨_, rfl⟩
  | list xs =>
    cases xs with
    | nil => exact absurd rfl h4
    | cons a l => exact ⟨_, rfl⟩

/-- Helper: `delete` really removes the key — reading it afterwards gives
`undefined`. -/
theorem jget_eraseKey (o : List (String × JVal)) (k : String) :
    jget (eraseKey o k) k = JVal.undefinedV := by
  have hnone : (eraseKey o k).find? (fun kv => kv.fst == k) = none := by
    rw [List.find?_eq_none]
    intro x hx
    have hpx := List.of_mem_filter hx
    simpa [bne] using hpx
  unfold jget
  rw [hnone]

/-- C6 counterexample: a parseable body with a nonzero `ErrorCode` and an
empty-string `Message` is normalized to the generic `Failed` message, not
to the body's `Message` field, and the `Message` key stays in the attached
detail — the code checks `result.Message` for truthiness, not presence. -/
theorem c6_empty_message_counterexample :
    handleParsed [("ErrorCode", JVal.num 1), ("Message", JVal.str "")]
      = RespOutcome.err (JVal.str "Failed")
          [("ErrorCode", JVal.num 1), ("Message", JVal.str "")]
    ∧ JVal.str "Failed"
        ≠ jget [("ErrorCode", JVal.num 1), ("Message", JVal.str "")] "Message" := by
  refine ⟨rfl, fun h => ?_⟩
  have h2 : "Failed" = "" := by injection h
  exact absurd h2 (by decide)

/-- C6 amended: for a parsed body whose `ErrorCode` is truthy (for numeric
codes: nonzero), the callback error's message is the body's `Message`
value when that value is truthy (present and non-empty) and the `Message`
key is then removed from the attached detail; when `Message` is absent,
empty or otherwise falsy, the message is the generic `Failed` and the body
is attached unchanged; for a body with no truthy `ErrorCode`, the callback
receives `(null, parsedBody)`. -/
theorem c6_error_normalization (result : List (String × JVal)) :
    ((jget result "ErrorCode").truthy = true →
      ((jget result "Message").truthy = true →
        handleParsed result
          = RespOutcome.err (jget result "Message") (eraseKey result "Message")
        ∧ jget (eraseKey result "Message") "Message" = JVal.undefinedV)
      ∧ ((jget result "Message").truthy = false →
        handleParsed result = RespOutcome.err (JVal.str "Failed") result))
    ∧ ((jget result "ErrorCode").truthy = false →
      handleParsed result = RespOutcome.ok result) := by
  refine ⟨fun hec => ⟨fun hm => ⟨?_, jget_eraseKey result "Message"⟩, fun hm => ?_⟩,
          fun hec => ?_⟩
  · simp [handleParsed, hec, hm]
  · simp [handleParsed, hec, hm]
  · simp [handleParsed, hec]

/-- C6 witness: the body with error code 300 and message `Invalid email`
yields an error with that message and a detail without the `Message`
key. -/
theorem c6_witness :
    handleParsed [("ErrorCode", JVal.num 300), ("Message", JVal.str "Invalid email")]
      = RespOutcome.err (JVal.str "Invalid email") [("ErrorCode", JVal.num 300)] := by
  have h := ((c6_error_normalization
      [("ErrorCode", JVal.num 300), ("Message", JVal.str "Invalid email")]).1 rfl).1 rfl
  exact h.1

/-- C7: when any attachment read fails, `email` delivers that error through
the callback, posts nothing (so no partial payload goes out) and discards
every successfully read attachment; the second clause shows the error of
the first listed attachment wins regardless of the remaining reads. -/
theorem c7_attachment_read_failure (fs : String → Except PMKError (List UInt8))
    (mime : String → String) (m : Message) (paths : List String) (e : PMKError)
    (h1 : m.to'.truthy = true) (h2 : truthyS m.subject = true)
    (h3 : truthyS m.text = true ∨ truthyS m.html = true)
    (h4 : m.to' ≠ Field.list []) (h5 : ¬ 20 < countRecipients m)
    (h6 : m.attachments = some paths) :
    (readAtts fs mime paths = Except.error e → email fs mime m = EmailOutcome.err e)
    ∧ (∀ p ps, paths = p :: ps → fs p = Except.error e →
        email fs mime m = EmailOutcome.err e) := by
  obtain ⟨tf, htf⟩ := emailToField_ok m.to' h1 h4
  have main : readAtts fs mime paths = Except.error e →
      email fs mime m = EmailOutcome.err e := by
    intro hr
    rcases h3 with h3 | h3 <;> simp [email, h1, h2, h3, htf, h5, h6, hr]
  refine ⟨main, fun p ps hp hf => main ?_⟩
  subst hp
  simp only [readAtts, hf]
  rfl

/-- C7 witness: one readable and one unreadable attachment: `email` yields
the filesystem error and posts nothing. -/
theorem c7_witness :
    email fsW mime0 exMsgAtt
      = EmailOutcome.err ⟨"ENOENT: no such file or directory, open b.txt"⟩ := by
  have h := (c7_attachment_read_failure fsW mime0 exMsgAtt ["a.txt", "b.txt"]
      ⟨"ENOENT: no such file or directory, open b.txt"⟩ (by decide) (by decide)
      (Or.inl (by decide)) (by decide) (by decide) rfl).1 (by rfl)
  exact h

/-- Helper: the final field-copy loop never touches `From`, so any posted
payload carries exactly the `From` computed at assembly. -/
theorem email_posted_From (fs : String → Except PMKError (List UInt8))
    (mime : String → String) (m : Message) (b : Body)
    (h : email fs mime m = EmailOutcome.posted b) : b.From = fromField m := by
  unfold email at h
  repeat' split at h
  all_goals cases h
  all_goals rfl

/-- C8: in any posted wire payload, `From` renders as the claim states:
with both `from` and `fromName` non-empty it is the display name followed
by the angle-bracketed address, the name wrapped in double quotes exactly
when some character falls outside `[A-Za-z0-9 ]`; with only `from` set it
is the bare address; with `from` absent or empty the field is omitted. -/
theorem c8_from_rendering (fs : String → Except PMKError (List UInt8))
    (mime : String → String) (m : Message) (b : Body)
    (hpost : email fs mime m = EmailOutcome.posted b) :
    (∀ f fn, m.from' = some f → f ≠ "" → m.fromName = some fn → fn ≠ "" →
      b.From = some ((if fn.data.any (fun c => !(isWordChar c))
                      then "\"" ++ fn ++ "\"" else fn) ++ " <" ++ f ++ ">"))
    ∧ (truthyS m.from' = true → truthyS m.fromName = false → b.From = m.from')
    ∧ (truthyS m.from' = false → b.From = none) := by
  have hb := email_posted_From fs mime m b hpost
  refine ⟨fun f fn hfrom hf hfn hfn2 => ?_, fun hx hy => ?_, fun hx => ?_⟩
  · rw [hb]
    simp [fromField, hfrom, hfn, truthyS, hf, hfn2, nonWordTest]
  · rw [hb]
    simp [fromField, hx, hy]
  · rw [hb]
    simp [fromField, hx]

/-- C8 witness: `fromName` containing a comma is quoted in the posted
payload. -/
theorem c8_witness :
    exBodyFrom.From = some "\"John, Doe\" <a@b.com>" := by
  have h := (c8_from_rendering fs0 mime0 exMsgFrom exBodyFrom rfl).1
      "a@b.com" "John, Doe" rfl (by decide) rfl (by decide)
  simpa using h

/-- C9: the posted wire payload is a deterministic function of the message
alone — two `email` calls on equal messages (transport stubbed: the
embedding returns the payload instead of sending it, and no state is
shared between calls) post equal payloads. -/
theorem c9_payload_deterministic (fs : String → Except PMKError (List UInt8))
    (mime : String → String) (m1 m2 : Message) (b1 b2 : Body)
    (hm : m1 = m2) (hc1 : email fs mime m1 = EmailOutcome.posted b1)
    (hc2 : email fs mime m2 = EmailOutcome.posted b2) : b1 = b2 := by
  subst hm
  rw [hc1] at hc2
  injection hc2

/-- C9 witness: a concrete message posts the same payload on both calls. -/
theorem c9_witness :
    exBodyDet = exBodyDet
    ∧ email fs0 mime0 exMsgDet = EmailOutcome.posted exBodyDet :=
  ⟨c9_payload_deterministic fs0 mime0 exMsgDet exMsgDet exBodyDet exBodyDet rfl rfl rfl,
   rfl⟩

end PMK
